import Mathlib

/-!
Shallow embedding of the execution orchestrator of `backend/app/runner.py`
(together with the `/run` endpoint glue of `backend/app/api.py`).

The external environment (operating system flavour, `shutil.which` lookups,
and the behaviour of each `subprocess.run` call) is modelled by a `World`
record; the code itself is translated function by function.  Every
`subprocess.run` call the code makes is recorded as an `Invocation` so that
claims of the form "never invokes any process" are statable.
-/

namespace Runner

/-- The result quadruple returned by `run_command` and
`run_linter_for_language`: `(stdout, stderr, returncode, executed_cmd_string)`. -/
structure RunResult where
  stdout : String
  stderr : String
  returncode : Int
  executed : String
deriving Repr, DecidableEq

/-- Possible behaviours of one `subprocess.run` call, as observed by the
`try` block of `run_command`: normal completion with captured streams and
exit code, `subprocess.TimeoutExpired`, `FileNotFoundError`, or any other
exception (permission denied, other OS errors). -/
inductive SubprocOutcome where
  | completed (stdout stderr : String) (returncode : Int)
  | timeoutExpired
  | fileNotFound (msg : String)
  | otherError (msg : String)
deriving Repr, DecidableEq

/-- `True` exactly for the outcomes `run_command` meets as exceptions
raised before or while producing output: they correspond to the
`FileNotFoundError` and generic `Exception` handlers. -/
def SubprocOutcome.isLaunchFailure : SubprocOutcome → Bool
  | .fileNotFound _ => true
  | .otherError _ => true
  | _ => false

/-- A record of one `subprocess.run` call actually made: either an argument
list executed directly (`shell` not set), or a single command-line string
executed through the platform shell (`shell=True`). -/
inductive Invocation where
  | argv (args : List String) (cwd : Option String) (timeLimit : Nat)
  | shell (cmdline : String) (cwd : Option String) (timeLimit : Nat)
deriving Repr, DecidableEq

/-- The timeout passed to the recorded `subprocess.run` call. -/
def Invocation.timeLimitOf : Invocation → Nat
  | .argv _ _ t => t
  | .shell _ _ t => t

/-- Whether the recorded call went through the platform shell. -/
def Invocation.isShell : Invocation → Bool
  | .argv _ _ _ => false
  | .shell _ _ _ => true

/-- The environment the orchestrator runs in: the platform flavour
(`os.name == "nt"`), the PATH lookup `shutil.which`, and an oracle giving
the behaviour of the `k`-th `subprocess.run` call of the current dispatch. -/
structure World where
  isWindows : Bool
  which : String → Option String
  outcomes : Nat → SubprocOutcome

/-- A command handed to `run_command`: `cmd` is `Union[str, List[str]]`. -/
inductive Cmd where
  | args (a : List String)
  | str (s : String)
deriving Repr, DecidableEq

/-! ### Python string primitives

The Python code normalises the language key with `.strip().lower()`.  All
supported keys are ASCII, so `str.lower` is modelled as ASCII lowercasing
and `str.strip` as removal of Python's whitespace characters; both are
implemented structurally over the character list. -/

/-- ASCII lowercasing of one character (`str.lower` on the ASCII range). -/
def asciiLowerChar (c : Char) : Char :=
  if 65 ≤ c.toNat ∧ c.toNat ≤ 90 then Char.ofNat (c.toNat + 32) else c

/-- Python's `str.lower` on ASCII strings. -/
def pyLower (s : String) : String :=
  String.mk (s.data.map asciiLowerChar)

/-- The characters Python's `str.strip()` removes by default. -/
def isPySpace (c : Char) : Bool :=
  c == ' ' || c == '\t' || c == '\n' || c == '\r' || c == '\x0b' || c == '\x0c'

/-- Python's `str.strip()` with no argument. -/
def pyStrip (s : String) : String :=
  String.mk (((s.data.dropWhile isPySpace).reverse.dropWhile isPySpace).reverse)

/-! ### `shlex.quote` (Python standard library, used by `run_command`) -/

/-- Characters Python's `shlex.quote` regards as safe compare
its `_find_unsafe` pattern: ASCII alphanumerics, underscore, and the
punctuation characters at-sign, percent, plus, equals, colon, comma,
dot, slash, dash. -/
def shlexSafeChar (c : Char) : Bool :=
  c.isAlphanum || c == '_' || c == '@' || c == '%' || c == '+' || c == '=' ||
    c == ':' || c == ',' || c == '.' || c == '/' || c == '-'

/-- Python's `shlex.quote`: empty strings become `''`; strings of safe
characters pass through; anything else is wrapped in single quotes with
embedded single quotes rendered as `'"'"'`.  The single-character
`str.replace` is modelled by character-wise expansion. -/
def shlexQuote (s : String) : String :=
  if s == "" then "\x27\x27"
  else if s.data.all shlexSafeChar then s
  else
    "\x27" ++
      String.mk (s.data.foldr
        (fun c acc =>
          (if c == '\x27' then "\x27\"\x27\"\x27".data else [c]) ++ acc) []) ++
      "\x27"

/-! ### `shlex.split` (POSIX mode, used by `run_command` on a string command) -/

/-- The whitespace characters `shlex` splits on. -/
def isShlexWS (c : Char) : Bool :=
  c == ' ' || c == '\t' || c == '\r' || c == '\n'

/-- Lexer state of `shlex`: outside quotes, inside single quotes, or inside
double quotes. -/
inductive ShState where
  | norm
  | insideSingle
  | insideDouble
deriving Repr, DecidableEq

/-- Core loop of Python's `shlex.split` in POSIX mode with whitespace
splitting: `tok` is the token under construction (`none` when no token has
started, so that `''` still yields an empty token), `acc` the tokens emitted
so far in reverse.  Unbalanced quotes and a trailing escape character raise
`ValueError`, modelled as `.error` with the interpreter's message. -/
def shlexAux : List Char → ShState → Option (List Char) → List (List Char) →
    Except String (List (List Char))
  | [], .norm, none, acc => .ok acc.reverse
  | [], .norm, some t, acc => .ok (t :: acc).reverse
  | [], .insideSingle, _, _ => .error "No closing quotation"
  | [], .insideDouble, _, _ => .error "No closing quotation"
  | c :: rest, .norm, tok, acc =>
    if isShlexWS c then
      match tok with
      | none => shlexAux rest .norm none acc
      | some t => shlexAux rest .norm none (t :: acc)
    else if c == '\x27' then
      shlexAux rest .insideSingle (some (tok.getD [])) acc
    else if c == '"' then
      shlexAux rest .insideDouble (some (tok.getD [])) acc
    else if c == '\\' then
      match rest with
      | [] => .error "No escaped character"
      | d :: rest2 => shlexAux rest2 .norm (some (tok.getD [] ++ [d])) acc
    else
      shlexAux rest .norm (some (tok.getD [] ++ [c])) acc
  | c :: rest, .insideSingle, tok, acc =>
    if c == '\x27' then shlexAux rest .norm (some (tok.getD [])) acc
    else shlexAux rest .insideSingle (some (tok.getD [] ++ [c])) acc
  | c :: rest, .insideDouble, tok, acc =>
    if c == '"' then shlexAux rest .norm (some (tok.getD [])) acc
    else if c == '\\' then
      match rest with
      | [] => .error "No escaped character"
      | d :: rest2 =>
        if d == '"' || d == '\\' then
          shlexAux rest2 .insideDouble (some (tok.getD [] ++ [d])) acc
        else
          shlexAux rest2 .insideDouble (some (tok.getD [] ++ [c, d])) acc
    else
      shlexAux rest .insideDouble (some (tok.getD [] ++ [c])) acc

/-- Python's `shlex.split(s)` (POSIX rules); `ValueError` messages are
returned in the `Except.error` case. -/
def shlexSplit (s : String) : Except String (List String) :=
  (shlexAux s.data .norm none []).map (List.map fun t => String.mk t)

/-- The return code a `subprocess.run` behaviour leads to after the
`try`/`except` structure of `run_command`: completion passes the exit code
through, timeout becomes 124, launch failures become 125. -/
def outcomeRC : SubprocOutcome → Int
  | .completed _ _ rc => rc
  | .timeoutExpired => 124
  | .fileNotFound _ => 125
  | .otherError _ => 125

/-! ### `run_command` -/

/-- The display string `" ".join(shlex.quote(str(a)) for a in cmd)` built by
`run_command` for an argument-list command. -/
def renderArgs (a : List String) : String :=
  " ".intercalate (a.map shlexQuote)

/-- How the `try`/`except` structure of `run_command` turns one
`subprocess.run` behaviour into the result quadruple: normal completion
passes the child's streams and exit code through; `TimeoutExpired` gives
return code 124; `FileNotFoundError` and any other exception give 125. -/
def interpretOutcome (o : SubprocOutcome) (timeLimit : Nat) (executed : String) :
    RunResult :=
  match o with
  | .completed out err rc => ⟨out, err, rc, executed⟩
  | .timeoutExpired =>
      ⟨"", "TimeoutExpired: process exceeded " ++ toString timeLimit ++ " seconds",
        124, executed⟩
  | .fileNotFound m =>
      ⟨"", "RunnerError: [WinError 2] The system cannot find the file specified: "
        ++ m, 125, executed⟩
  | .otherError m => ⟨"", "RunnerError: " ++ m, 125, executed⟩

/-- `run_command(cmd, cwd, timeout)` of `runner.py`.  `k` indexes the
`subprocess.run` call in `world.outcomes`.  Returns the result quadruple
together with the list of `subprocess.run` calls actually made (empty when
`shlex.split` raises `ValueError` before any process is spawned; that
exception is caught by the generic handler and surfaced as return code
125). -/
def run_command (world : World) (k : Nat) (cmd : Cmd) (cwd : Option String)
    (timeLimit : Nat) : RunResult × List Invocation :=
  match cmd with
  | .args a =>
    let executed := renderArgs a
    (interpretOutcome (world.outcomes k) timeLimit executed,
      [.argv a cwd timeLimit])
  | .str s =>
    if world.isWindows then
      (interpretOutcome (world.outcomes k) timeLimit s, [.shell s cwd timeLimit])
    else
      match shlexSplit s with
      | .error m => (⟨"", "RunnerError: " ++ m, 125, s⟩, [])
      | .ok a =>
        let executed := renderArgs a
        (interpretOutcome (world.outcomes k) timeLimit executed,
          [.argv a cwd timeLimit])

/-! ### Path helpers (`pathlib.Path` operations used by the dispatcher)

The dispatcher only uses `Path(file_path).parent`, `.stem`, `.suffix`,
`str(p)` and `Path(cwd) / name`.  We model them for the POSIX-style,
already-normalised paths the orchestrator produces (no repeated or trailing
separators), on which `str(Path(x)) = x`. -/

/-- Split a character list on a separator character, keeping empty pieces,
like Python's `str.split(sep)`. -/
def splitOnChar : List Char → Char → List (List Char)
  | [], _ => [[]]
  | c :: rest, sep =>
    if c == sep then [] :: splitOnChar rest sep
    else
      match splitOnChar rest sep with
      | [] => [[c]]
      | t :: ts => (c :: t) :: ts

/-- The slash-separated components of a path. -/
def pathComponents (path : String) : List String :=
  (splitOnChar path.data '/').map String.mk

/-- Index of the last occurrence of a character, like Python's
`str.rfind`. -/
def rfindChar : List Char → Char → Option Nat
  | [], _ => none
  | x :: xs, c =>
    match rfindChar xs c with
    | some i => some (i + 1)
    | none => if x == c then some 0 else none

/-- `Path(path).name`: the final path component. -/
def pathName (path : String) : String :=
  (((pathComponents path).filter (fun s => s ≠ "")).getLast?).getD ""

/-- `Path(path).parent` for a normalised POSIX-style path. -/
def pathParent (path : String) : String :=
  let comps := pathComponents path
  if comps.length ≤ 1 then "."
  else
    let joined := "/".intercalate comps.dropLast
    if joined == "" then "/" else joined

/-- `Path(path).suffix`: the extension of the final component, empty for
hidden files and names without an interior dot. -/
def pathSuffix (path : String) : String :=
  let nm := (pathName path).data
  match rfindChar nm '.' with
  | some i => if 0 < i ∧ i + 1 < nm.length then String.mk (nm.drop i) else ""
  | none => ""

/-- `Path(path).stem`: the final component with `pathSuffix` removed. -/
def pathStem (path : String) : String :=
  let nm := (pathName path).data
  match rfindChar nm '.' with
  | some i =>
      if 0 < i ∧ i + 1 < nm.length then String.mk (nm.take i) else String.mk nm
  | none => String.mk nm

/-- `Path(cwd) / name`, rendered with the platform separator. -/
def pathJoin (world : World) (cwd nm : String) : String :=
  if world.isWindows then cwd ++ "\\" ++ nm else cwd ++ "/" ++ nm

/-! ### Toolchain locator and executable naming policy -/

/-- `is_executable_available(name)`: `shutil.which(name) is not None`. -/
def is_executable_available (world : World) (nm : String) : Bool :=
  (world.which nm).isSome

/-- `_make_executable_path(cwd, name)`: on Windows appends the `.exe`
suffix, otherwise returns the bare joined path. -/
def make_executable_path (world : World) (cwd nm : String) : String :=
  if world.isWindows then pathJoin world cwd (nm ++ ".exe")
  else pathJoin world cwd nm

/-- The idiom `shutil.which("python") or shutil.which("python3")` used by
both the python branch and the extension fallback of
`run_linter_for_language`. -/
def pythonBin (world : World) : Option String :=
  match world.which "python" with
  | some b => some b
  | none => world.which "python3"

/-! ### `run_linter_for_language` -/

/-- `run_linter_for_language(file_path, language, timeout=30)` of
`runner.py`: per-language dispatch with the compile-then-run state machine
for java and c/cpp.  Returns the result quadruple together with the trace
of `subprocess.run` calls made (in order). -/
def run_linter_for_language (world : World) (file_path : String)
    (language : String) (timeLimit : Nat := 30) : RunResult × List Invocation :=
  let p := file_path
  let cwd := pathParent p
  let lang := pyLower (pyStrip language)
  if lang == "python" || lang == "py" then
    match pythonBin world with
    | some python_bin =>
        run_command world 0 (.args [python_bin, p]) (some cwd) timeLimit
    | none =>
        if is_executable_available world "pylint" then
          run_command world 0 (.args ["pylint", p]) (some cwd) timeLimit
        else
          (⟨"", "No python interpreter or pylint found on PATH.", 125, ""⟩, [])
  else if lang == "javascript" || lang == "js" || lang == "node" then
    if is_executable_available world "node" then
      run_command world 0 (.args ["node", p]) (some cwd) timeLimit
    else if is_executable_available world "eslint" then
      run_command world 0 (.args ["eslint", p]) (some cwd) timeLimit
    else
      (⟨"", "No node or eslint found on PATH.", 125, ""⟩, [])
  else if lang == "java" then
    if !is_executable_available world "javac" then
      (⟨"", "No javac found on PATH. Please install JDK and add javac to PATH.",
        125, ""⟩, [])
    else
      let compile_cmd : List String := ["javac", p]
      let (c, invsC) := run_command world 0 (.args compile_cmd) (some cwd) timeLimit
      if c.returncode ≠ 0 then (c, invsC)
      else
        let class_name := pathStem p
        if !is_executable_available world "java" then
          (⟨c.stdout, "Compiled but `java` runtime not found on PATH.", 125,
            c.executed⟩, invsC)
        else
          let runPhase : List String := ["java", "-cp", cwd, class_name]
          let (r, invsR) := run_command world 1 (.args runPhase) (some cwd) timeLimit
          (⟨r.stdout, r.stderr, r.returncode, c.executed ++ " ; " ++ r.executed⟩,
            invsC ++ invsR)
  else if lang == "c" || lang == "cpp" || lang == "c++" then
    let is_cpp := lang == "cpp" || lang == "c++"
    let compilerFound :=
      if is_cpp then
        if is_executable_available world "g++" then some "g++"
        else if is_executable_available world "clang++" then some "clang++"
        else none
      else
        if is_executable_available world "gcc" then some "gcc"
        else if is_executable_available world "clang" then some "clang"
        else none
    match compilerFound with
    | none =>
        (⟨"", "No C/C++ compiler found on PATH. Install gcc/g++ or clang.",
          125, ""⟩, [])
    | some compiler =>
        let exe_name := "a_out_exec"
        let exe_path := make_executable_path world cwd exe_name
        let compile_cmd := [compiler, p, "-o", exe_path] ++
          (if is_cpp && (compiler == "g++" || compiler == "clang++") then
            ["-std=c++17"] else [])
        let (c, invsC) := run_command world 0 (.args compile_cmd) (some cwd) timeLimit
        if c.returncode ≠ 0 then (c, invsC)
        else
          let (r, invsR) := run_command world 1 (.args [exe_path]) (some cwd) timeLimit
          (⟨r.stdout, r.stderr, r.returncode, c.executed ++ " ; " ++ r.executed⟩,
            invsC ++ invsR)
  else
    if pathSuffix p == ".py" then
      match pythonBin world with
      | some python_bin =>
          run_command world 0 (.args [python_bin, p]) (some cwd) timeLimit
      | none =>
          (⟨"", "No runner available for language \x27" ++ language ++ "\x27.",
            125, ""⟩, [])
    else
      (⟨"", "No runner available for language \x27" ++ language ++ "\x27.",
        125, ""⟩, [])

/-- The ordered list of toolchain names `run_linter_for_language` consults
for a (normalised) language key, in source order of its `shutil.which` /
`is_executable_available` calls, including the lint-only fallbacks. -/
def toolchainCandidates (lang : String) : List String :=
  if lang == "python" || lang == "py" then ["python", "python3", "pylint"]
  else if lang == "javascript" || lang == "js" || lang == "node" then
    ["node", "eslint"]
  else if lang == "java" then ["javac", "java"]
  else if lang == "c" then ["gcc", "clang"]
  else if lang == "cpp" || lang == "c++" then ["g++", "clang++"]
  else []

end Runner

namespace Api

/-- The input model of the `/run` endpoint (`RunRequest` in `api.py`):
a language name, an optional filename and the source code.  There is no
timeout field. -/
structure RunRequest where
  language : String
  filename : Option String
  code : String
deriving Repr, DecidableEq

/-- The extension lookup table of `run_code`, defaulting to `".txt"`. -/
def extFor (lang : String) : String :=
  if lang == "python" then ".py"
  else if lang == "javascript" then ".js"
  else if lang == "java" then ".java"
  else if lang == "c" then ".c"
  else if lang == "cpp" then ".cpp"
  else if lang == "c++" then ".cpp"
  else ".txt"

/-- `req.filename or f"main{ext}"`: Python treats both `None` and the empty
string as falsy. -/
def chosenFilename (filename : Option String) (ext : String) : String :=
  match filename with
  | some f => if f == "" then "main" ++ ext else f
  | none => "main" ++ ext

/-- The `/run` endpoint body (`run_code` in `api.py`): lowercases the
language, picks an extension, materialises the code at
`os.path.join(td, filename)` inside the temporary directory `td`, and calls
`run_linter_for_language` without a timeout argument, so the runner's
default of 30 applies.  Returns the result, the invocation trace, and the
`used_filename` reported to the client. -/
def run_code (world : Runner.World) (td : String) (req : RunRequest) :
    Runner.RunResult × List Runner.Invocation × String :=
  let lang := Runner.pyLower req.language
  let ext := extFor lang
  let file_path := Runner.pathJoin world td (chosenFilename req.filename ext)
  let res := Runner.run_linter_for_language world file_path lang
  (res.1, res.2, file_path)

end Api

namespace Runner

/-! ### Concrete environments

Closed sample `World`s, used to evaluate the development on concrete
inputs. -/

/-- POSIX host with a full JDK; compilation succeeds (exit 0, no output),
the run step prints `2` and exits 0. -/
def worldJavaOk : World where
  isWindows := false
  which := fun n =>
    if n == "javac" || n == "java" then some ("/usr/bin/" ++ n) else none
  outcomes := fun k =>
    if k == 0 then .completed "" "" 0 else .completed "2\n" "" 0

/-- POSIX host with a full JDK; compilation fails with exit code 1 and a
diagnostic on stderr. -/
def worldJavaCompileFail : World where
  isWindows := false
  which := fun n =>
    if n == "javac" || n == "java" then some ("/usr/bin/" ++ n) else none
  outcomes := fun _ => .completed "" "Main.java:1: error: x" 1

/-- POSIX host with only `gcc`; compilation succeeds, the produced binary
prints `hi` and exits with code 2. -/
def worldGccOk : World where
  isWindows := false
  which := fun n => if n == "gcc" then some "/usr/bin/gcc" else none
  outcomes := fun k =>
    if k == 0 then .completed "" "" 0 else .completed "hi\n" "" 2

/-- POSIX host with only `g++`. -/
def worldGppOk : World where
  isWindows := false
  which := fun n => if n == "g++" then some "/usr/bin/g++" else none
  outcomes := fun k =>
    if k == 0 then .completed "" "" 0 else .completed "hi\n" "" 2

/-- POSIX host with an empty PATH: no toolchain at all. -/
def worldEmptyPath : World where
  isWindows := false
  which := fun _ => none
  outcomes := fun _ => .completed "" "" 0

/-- POSIX host where only `pylint` is installed: no python interpreter. -/
def worldPylintOnly : World where
  isWindows := false
  which := fun n => if n == "pylint" then some "/usr/bin/pylint" else none
  outcomes := fun _ => .completed "lint report" "" 0

/-- Windows host whose shell runs every command successfully. -/
def worldWindowsShell : World where
  isWindows := true
  which := fun _ => none
  outcomes := fun _ => .completed "hi" "" 0

/-- POSIX host where every spawned process exceeds its timeout. -/
def worldAlwaysTimeout : World where
  isWindows := false
  which := fun n => some ("/usr/bin/" ++ n)
  outcomes := fun _ => .timeoutExpired

/-- POSIX host where every spawn attempt raises `FileNotFoundError`. -/
def worldLaunchFailure : World where
  isWindows := false
  which := fun n => some ("/usr/bin/" ++ n)
  outcomes := fun _ => .fileNotFound "sleep"

/-- POSIX host with a python interpreter that echoes a greeting. -/
def worldPythonOk : World where
  isWindows := false
  which := fun n => if n == "python" then some "/usr/bin/python" else none
  outcomes := fun _ => .completed "hi\n" "" 0

/-! ## Lemmas about `run_command` -/

theorem interpretOutcome_returncode (o : SubprocOutcome) (t : Nat) (e : String) :
    (interpretOutcome o t e).returncode = outcomeRC o := by
  cases o <;> rfl

theorem run_command_timeLimit (world : World) (k : Nat) (cmd : Cmd)
    (cwd : Option String) (t : Nat) (inv : Invocation)
    (h : inv ∈ (run_command world k cmd cwd t).2) : inv.timeLimitOf = t := by
  cases cmd with
  | args a =>
    simp only [run_command, List.mem_singleton] at h
    subst h; rfl
  | str s =>
    cases hw : world.isWindows with
    | true =>
      simp only [run_command, hw, if_true, List.mem_singleton] at h
      subst h; rfl
    | false =>
      cases hs : shlexSplit s with
      | error m =>
        simp only [run_command, hw, Bool.false_eq_true, if_false, hs,
          List.not_mem_nil] at h
      | ok a =>
        simp only [run_command, hw, Bool.false_eq_true, if_false, hs,
          List.mem_singleton] at h
        subst h; rfl

/-! ## Claims about the process invoker -/

/-- C2: for every command, working directory and timeout value, when the
spawned child exceeds the timeout (`subprocess.TimeoutExpired`), the process
invoker returns empty stdout, a stderr message naming the timeout, and
return code 124. -/
theorem invoke_timeout_result (world : World) (k : Nat) (cmd : Cmd)
    (cwd : Option String) (t : Nat)
    (hto : world.outcomes k = SubprocOutcome.timeoutExpired)
    (hspawn : (run_command world k cmd cwd t).2 ≠ []) :
    (run_command world k cmd cwd t).1.stdout = "" ∧
    (run_command world k cmd cwd t).1.stderr =
      "TimeoutExpired: process exceeded " ++ toString t ++ " seconds" ∧
    (run_command world k cmd cwd t).1.returncode = 124 := by
  cases cmd with
  | args a =>
    simp [run_command, hto, interpretOutcome]
  | str s =>
    cases hw : world.isWindows with
    | true => simp [run_command, hw, hto, interpretOutcome]
    | false =>
      cases hs : shlexSplit s with
      | error m =>
        exfalso
        apply hspawn
        simp [run_command, hw, hs]
      | ok a =>
        simp [run_command, hw, hs, hto, interpretOutcome]

/-- C2 witness: a `sleep 100` under a 1-second limit on a host where every
process times out. -/
theorem invoke_timeout_result_witness :
    (run_command worldAlwaysTimeout 0 (Cmd.args ["sleep", "100"]) none 1).1.stdout = "" ∧
    (run_command worldAlwaysTimeout 0 (Cmd.args ["sleep", "100"]) none 1).1.stderr =
      "TimeoutExpired: process exceeded " ++ toString 1 ++ " seconds" ∧
    (run_command worldAlwaysTimeout 0 (Cmd.args ["sleep", "100"]) none 1).1.returncode = 124 :=
  invoke_timeout_result worldAlwaysTimeout 0 (Cmd.args ["sleep", "100"]) none 1
    rfl (by decide)

/-- C3: the process invoker converts every launch failure
(`FileNotFoundError` or any other exception, and likewise the `ValueError`
a malformed string command raises inside the `try` block) into a result
with empty stdout, a stderr message extending the `RunnerError: ` tag, and
return code 125; no exception escapes (the function is total). -/
theorem invoke_launch_failure_result (world : World) (k : Nat) (cmd : Cmd)
    (cwd : Option String) (t : Nat)
    (hlf : (world.outcomes k).isLaunchFailure = true) :
    (run_command world k cmd cwd t).1.stdout = "" ∧
    (run_command world k cmd cwd t).1.returncode = 125 ∧
    ∃ tail, (run_command world k cmd cwd t).1.stderr = "RunnerError: " ++ tail := by
  have interp : ∀ e, (interpretOutcome (world.outcomes k) t e).stdout = "" ∧
      (interpretOutcome (world.outcomes k) t e).returncode = 125 ∧
      ∃ tail, (interpretOutcome (world.outcomes k) t e).stderr =
        "RunnerError: " ++ tail := by
    intro e
    cases ho : world.outcomes k with
    | completed out err rc => rw [ho] at hlf; simp [SubprocOutcome.isLaunchFailure] at hlf
    | timeoutExpired => rw [ho] at hlf; simp [SubprocOutcome.isLaunchFailure] at hlf
    | fileNotFound m =>
      refine ⟨rfl, rfl, "[WinError 2] The system cannot find the file specified: " ++ m, ?_⟩
      show "RunnerError: [WinError 2] The system cannot find the file specified: " ++ m =
        "RunnerError: " ++ ("[WinError 2] The system cannot find the file specified: " ++ m)
      rw [← String.append_assoc]
      rfl
    | otherError m => exact ⟨rfl, rfl, m, rfl⟩
  cases cmd with
  | args a => exact interp _
  | str s =>
    cases hw : world.isWindows with
    | true =>
      have := interp s
      simpa [run_command, hw] using this
    | false =>
      cases hs : shlexSplit s with
      | error m =>
        refine ⟨?_, ?_, m, ?_⟩ <;> simp [run_command, hw, hs]
      | ok a =>
        have := interp (renderArgs a)
        simpa [run_command, hw, hs] using this

/-- C3 witness: spawning a missing executable. -/
theorem invoke_launch_failure_result_witness :
    (run_command worldLaunchFailure 0 (Cmd.args ["nosuch"]) none 30).1.stdout = "" ∧
    (run_command worldLaunchFailure 0 (Cmd.args ["nosuch"]) none 30).1.returncode = 125 ∧
    ∃ tail, (run_command worldLaunchFailure 0 (Cmd.args ["nosuch"]) none 30).1.stderr =
      "RunnerError: " ++ tail :=
  invoke_launch_failure_result worldLaunchFailure 0 (Cmd.args ["nosuch"]) none 30 rfl

/-- C6 counterexample: on a Windows host a single-string command is handed
to `subprocess.run` with `shell=True`, so the program name is looked up
through the shell and the string is not tokenized by the invoker; the
recorded invocation is a shell invocation. -/
theorem string_command_shell_counterexample :
    (run_command worldWindowsShell 0 (Cmd.str "echo hi") none 30).2 =
      [Invocation.shell "echo hi" none 30] := rfl

/-- C6 (amended): a single-string command is tokenized with shell-like
quoting rules and executed without any shell lookup only on non-Windows
hosts; a malformed string is rejected with return code 125 before any
spawn; on Windows the string is passed to the platform shell verbatim. -/
theorem string_command_tokenization (world : World) (k : Nat) (s : String)
    (cwd : Option String) (t : Nat) :
    (world.isWindows = false → ∀ a, shlexSplit s = Except.ok a →
      run_command world k (Cmd.str s) cwd t =
        (interpretOutcome (world.outcomes k) t (renderArgs a),
         [Invocation.argv a cwd t])) ∧
    (world.isWindows = false → ∀ m, shlexSplit s = Except.error m →
      run_command world k (Cmd.str s) cwd t =
        (⟨"", "RunnerError: " ++ m, 125, s⟩, [])) ∧
    (world.isWindows = true →
      run_command world k (Cmd.str s) cwd t =
        (interpretOutcome (world.outcomes k) t s,
         [Invocation.shell s cwd t])) := by
  refine ⟨fun hw a hs => ?_, fun hw m hs => ?_, fun hw => ?_⟩
  · simp [run_command, hw, hs]
  · simp [run_command, hw, hs]
  · simp [run_command, hw]

/-- C6 witness: tokenizing `echo 'hi there'` on a POSIX host. -/
theorem string_command_tokenization_witness :
    run_command worldPythonOk 0 (Cmd.str "echo \x27hi there\x27") none 30 =
      (interpretOutcome (worldPythonOk.outcomes 0) 30
        (renderArgs ["echo", "hi there"]),
       [Invocation.argv ["echo", "hi there"] none 30]) :=
  (string_command_tokenization worldPythonOk 0 "echo \x27hi there\x27" none 30).1
    rfl ["echo", "hi there"] rfl

/-! ## Claims about the language dispatcher -/

/-- C1: for every compile-and-run language (java, c, cpp/c++), whenever the
compile step's return code is nonzero, the run step is never invoked (the
trace holds exactly the compile invocation) and the dispatcher returns the
compile step's stdout, stderr, return code and executed command unchanged.
Each conjunct covers one language key and one available compiler. -/
theorem compile_failure_skips_run (world : World) (fp language : String)
    (t : Nat) (hrc : outcomeRC (world.outcomes 0) ≠ 0) :
    (pyLower (pyStrip language) = "java" → ∀ jp, world.which "javac" = some jp →
      run_linter_for_language world fp language t =
        (interpretOutcome (world.outcomes 0) t (renderArgs ["javac", fp]),
         [Invocation.argv ["javac", fp] (some (pathParent fp)) t])) ∧
    (pyLower (pyStrip language) = "c" → ∀ gp, world.which "gcc" = some gp →
      run_linter_for_language world fp language t =
        (interpretOutcome (world.outcomes 0) t
          (renderArgs ["gcc", fp, "-o",
            make_executable_path world (pathParent fp) "a_out_exec"]),
         [Invocation.argv ["gcc", fp, "-o",
            make_executable_path world (pathParent fp) "a_out_exec"]
            (some (pathParent fp)) t])) ∧
    (pyLower (pyStrip language) = "c" → world.which "gcc" = none →
      ∀ cp, world.which "clang" = some cp →
      run_linter_for_language world fp language t =
        (interpretOutcome (world.outcomes 0) t
          (renderArgs ["clang", fp, "-o",
            make_executable_path world (pathParent fp) "a_out_exec"]),
         [Invocation.argv ["clang", fp, "-o",
            make_executable_path world (pathParent fp) "a_out_exec"]
            (some (pathParent fp)) t])) ∧
    ((pyLower (pyStrip language) = "cpp" ∨ pyLower (pyStrip language) = "c++") →
      ∀ gp, world.which "g++" = some gp →
      run_linter_for_language world fp language t =
        (interpretOutcome (world.outcomes 0) t
          (renderArgs ["g++", fp, "-o",
            make_executable_path world (pathParent fp) "a_out_exec",
            "-std=c++17"]),
         [Invocation.argv ["g++", fp, "-o",
            make_executable_path world (pathParent fp) "a_out_exec",
            "-std=c++17"] (some (pathParent fp)) t])) ∧
    ((pyLower (pyStrip language) = "cpp" ∨ pyLower (pyStrip language) = "c++") →
      world.which "g++" = none → ∀ cp, world.which "clang++" = some cp →
      run_linter_for_language world fp language t =
        (interpretOutcome (world.outcomes 0) t
          (renderArgs ["clang++", fp, "-o",
            make_executable_path world (pathParent fp) "a_out_exec",
            "-std=c++17"]),
         [Invocation.argv ["clang++", fp, "-o",
            make_executable_path world (pathParent fp) "a_out_exec",
            "-std=c++17"] (some (pathParent fp)) t])) := by
  refine ⟨fun hlang jp hjavac => ?_, fun hlang gp hgcc => ?_,
    fun hlang hgcc cp hclang => ?_, fun hlang gp hgpp => ?_,
    fun hlang hgpp cp hclangpp => ?_⟩
  · simp only [run_linter_for_language]
    rw [hlang]
    simp [is_executable_available, hjavac, run_command,
      interpretOutcome_returncode, hrc]
  · simp only [run_linter_for_language]
    rw [hlang]
    simp [is_executable_available, hgcc, run_command,
      interpretOutcome_returncode, hrc]
  · simp only [run_linter_for_language]
    rw [hlang]
    simp [is_executable_available, hgcc, hclang, run_command,
      interpretOutcome_returncode, hrc]
  · rcases hlang with h | h <;>
    · simp only [run_linter_for_language]
      rw [h]
      simp [is_executable_available, hgpp, run_command,
        interpretOutcome_returncode, hrc]
  · rcases hlang with h | h <;>
    · simp only [run_linter_for_language]
      rw [h]
      simp [is_executable_available, hgpp, hclangpp, run_command,
        interpretOutcome_returncode, hrc]

/-- C1 witness: a failing `javac` run on a POSIX host with a full JDK. -/
theorem compile_failure_skips_run_witness :
    run_linter_for_language worldJavaCompileFail "/tmp/Main.java" "java" 30 =
      (interpretOutcome (worldJavaCompileFail.outcomes 0) 30
        (renderArgs ["javac", "/tmp/Main.java"]),
       [Invocation.argv ["javac", "/tmp/Main.java"]
         (some (pathParent "/tmp/Main.java")) 30]) :=
  (compile_failure_skips_run worldJavaCompileFail "/tmp/Main.java" "java" 30
    (by decide)).1 (by decide) "/usr/bin/javac" rfl

theorem interpretOutcome_executed (o : SubprocOutcome) (t : Nat) (e : String) :
    (interpretOutcome o t e).executed = e := by
  cases o <;> rfl

/-- C4: for every supported language key, when none of that language's
preferred toolchains (nor its lint-only fallback, where one exists) is on
the search path, the dispatcher answers return code 125 with a nonempty
explanatory stderr and records no process invocation at all. -/
theorem toolchain_absent_no_invocation (world : World) (fp language : String)
    (t : Nat)
    (hsup : pyLower (pyStrip language) ∈
      (["python", "py", "javascript", "js", "node", "java", "c", "cpp",
        "c++"] : List String))
    (habs : ∀ n ∈ toolchainCandidates (pyLower (pyStrip language)),
      world.which n = none) :
    (run_linter_for_language world fp language t).1.returncode = 125 ∧
    (run_linter_for_language world fp language t).1.stderr ≠ "" ∧
    (run_linter_for_language world fp language t).2 = [] := by
  simp only [List.mem_cons, List.not_mem_nil, or_false] at hsup
  rcases hsup with h | h | h | h | h | h | h | h | h
  · have h1 : world.which "python" = none := habs _ (by rw [h]; decide)
    have h2 : world.which "python3" = none := habs _ (by rw [h]; decide)
    have h3 : world.which "pylint" = none := habs _ (by rw [h]; decide)
    simp only [run_linter_for_language]
    rw [h]
    simp [pythonBin, is_executable_available, h1, h2, h3]
  · have h1 : world.which "python" = none := habs _ (by rw [h]; decide)
    have h2 : world.which "python3" = none := habs _ (by rw [h]; decide)
    have h3 : world.which "pylint" = none := habs _ (by rw [h]; decide)
    simp only [run_linter_for_language]
    rw [h]
    simp [pythonBin, is_executable_available, h1, h2, h3]
  · have h1 : world.which "node" = none := habs _ (by rw [h]; decide)
    have h2 : world.which "eslint" = none := habs _ (by rw [h]; decide)
    simp only [run_linter_for_language]
    rw [h]
    simp [is_executable_available, h1, h2]
  · have h1 : world.which "node" = none := habs _ (by rw [h]; decide)
    have h2 : world.which "eslint" = none := habs _ (by rw [h]; decide)
    simp only [run_linter_for_language]
    rw [h]
    simp [is_executable_available, h1, h2]
  · have h1 : world.which "node" = none := habs _ (by rw [h]; decide)
    have h2 : world.which "eslint" = none := habs _ (by rw [h]; decide)
    simp only [run_linter_for_language]
    rw [h]
    simp [is_executable_available, h1, h2]
  · have h1 : world.which "javac" = none := habs _ (by rw [h]; decide)
    simp only [run_linter_for_language]
    rw [h]
    simp [is_executable_available, h1]
  · have h1 : world.which "gcc" = none := habs _ (by rw [h]; decide)
    have h2 : world.which "clang" = none := habs _ (by rw [h]; decide)
    simp only [run_linter_for_language]
    rw [h]
    simp [is_executable_available, h1, h2]
  · have h1 : world.which "g++" = none := habs _ (by rw [h]; decide)
    have h2 : world.which "clang++" = none := habs _ (by rw [h]; decide)
    simp only [run_linter_for_language]
    rw [h]
    simp [is_executable_available, h1, h2]
  · have h1 : world.which "g++" = none := habs _ (by rw [h]; decide)
    have h2 : world.which "clang++" = none := habs _ (by rw [h]; decide)
    simp only [run_linter_for_language]
    rw [h]
    simp [is_executable_available, h1, h2]

/-- C4 witness: requesting java on a host with an empty PATH. -/
theorem toolchain_absent_no_invocation_witness :
    (run_linter_for_language worldEmptyPath "/tmp/Main.java" "java" 30).1.returncode = 125 ∧
    (run_linter_for_language worldEmptyPath "/tmp/Main.java" "java" 30).1.stderr ≠ "" ∧
    (run_linter_for_language worldEmptyPath "/tmp/Main.java" "java" 30).2 = [] :=
  toolchain_absent_no_invocation worldEmptyPath "/tmp/Main.java" "java" 30
    (by decide) (by decide)

/-- Shared shape lemma: the java branch with both toolchains present and a
successful compile returns the run step's streams and exit code, the two
executed commands joined by the separator, and a two-invocation trace. -/
theorem dispatchJavaSuccess (world : World) (fp language : String) (t : Nat)
    (hlang : pyLower (pyStrip language) = "java")
    (jp : String) (hjavac : world.which "javac" = some jp)
    (vp : String) (hjava : world.which "java" = some vp)
    (hrc : outcomeRC (world.outcomes 0) = 0) :
    run_linter_for_language world fp language t =
      (⟨(interpretOutcome (world.outcomes 1) t
           (renderArgs ["java", "-cp", pathParent fp, pathStem fp])).stdout,
        (interpretOutcome (world.outcomes 1) t
           (renderArgs ["java", "-cp", pathParent fp, pathStem fp])).stderr,
        (interpretOutcome (world.outcomes 1) t
           (renderArgs ["java", "-cp", pathParent fp, pathStem fp])).returncode,
        renderArgs ["javac", fp] ++ " ; " ++
          renderArgs ["java", "-cp", pathParent fp, pathStem fp]⟩,
       [Invocation.argv ["javac", fp] (some (pathParent fp)) t,
        Invocation.argv ["java", "-cp", pathParent fp, pathStem fp]
          (some (pathParent fp)) t]) := by
  simp only [run_linter_for_language]
  rw [hlang]
  simp [is_executable_available, hjavac, hjava, run_command,
    interpretOutcome_returncode, interpretOutcome_executed, hrc]

/-- Shared shape lemma: the c branch compiled with `gcc`, compile
succeeding. -/
theorem dispatchCSuccessGcc (world : World) (fp language : String) (t : Nat)
    (hlang : pyLower (pyStrip language) = "c")
    (gp : String) (hgcc : world.which "gcc" = some gp)
    (hrc : outcomeRC (world.outcomes 0) = 0) :
    run_linter_for_language world fp language t =
      (⟨(interpretOutcome (world.outcomes 1) t
           (renderArgs [make_executable_path world (pathParent fp) "a_out_exec"])).stdout,
        (interpretOutcome (world.outcomes 1) t
           (renderArgs [make_executable_path world (pathParent fp) "a_out_exec"])).stderr,
        (interpretOutcome (world.outcomes 1) t
           (renderArgs [make_executable_path world (pathParent fp) "a_out_exec"])).returncode,
        renderArgs ["gcc", fp, "-o",
          make_executable_path world (pathParent fp) "a_out_exec"] ++ " ; " ++
          renderArgs [make_executable_path world (pathParent fp) "a_out_exec"]⟩,
       [Invocation.argv ["gcc", fp, "-o",
          make_executable_path world (pathParent fp) "a_out_exec"]
          (some (pathParent fp)) t,
        Invocation.argv [make_executable_path world (pathParent fp) "a_out_exec"]
          (some (pathParent fp)) t]) := by
  simp only [run_linter_for_language]
  rw [hlang]
  simp [is_executable_available, hgcc, run_command,
    interpretOutcome_returncode, interpretOutcome_executed, hrc]

/-- Shared shape lemma: the cpp branch compiled with `g++` (which adds the
`-std=c++17` flag), compile succeeding. -/
theorem dispatchCppSuccessGpp (world : World) (fp language : String) (t : Nat)
    (hlang : pyLower (pyStrip language) = "cpp" ∨ pyLower (pyStrip language) = "c++")
    (gp : String) (hgpp : world.which "g++" = some gp)
    (hrc : outcomeRC (world.outcomes 0) = 0) :
    run_linter_for_language world fp language t =
      (⟨(interpretOutcome (world.outcomes 1) t
           (renderArgs [make_executable_path world (pathParent fp) "a_out_exec"])).stdout,
        (interpretOutcome (world.outcomes 1) t
           (renderArgs [make_executable_path world (pathParent fp) "a_out_exec"])).stderr,
        (interpretOutcome (world.outcomes 1) t
           (renderArgs [make_executable_path world (pathParent fp) "a_out_exec"])).returncode,
        renderArgs ["g++", fp, "-o",
          make_executable_path world (pathParent fp) "a_out_exec",
          "-std=c++17"] ++ " ; " ++
          renderArgs [make_executable_path world (pathParent fp) "a_out_exec"]⟩,
       [Invocation.argv ["g++", fp, "-o",
          make_executable_path world (pathParent fp) "a_out_exec",
          "-std=c++17"] (some (pathParent fp)) t,
        Invocation.argv [make_executable_path world (pathParent fp) "a_out_exec"]
          (some (pathParent fp)) t]) := by
  rcases hlang with h | h <;>
  · simp only [run_linter_for_language]
    rw [h]
    simp [is_executable_available, hgpp, run_command,
      interpretOutcome_returncode, interpretOutcome_executed, hrc]

/-- Shared shape lemma: the c branch compiled with `clang` (selected when
`gcc` is absent), compile succeeding. -/
theorem dispatchCSuccessClang (world : World) (fp language : String) (t : Nat)
    (hlang : pyLower (pyStrip language) = "c")
    (hgcc : world.which "gcc" = none)
    (cp : String) (hclang : world.which "clang" = some cp)
    (hrc : outcomeRC (world.outcomes 0) = 0) :
    run_linter_for_language world fp language t =
      (⟨(interpretOutcome (world.outcomes 1) t
           (renderArgs [make_executable_path world (pathParent fp) "a_out_exec"])).stdout,
        (interpretOutcome (world.outcomes 1) t
           (renderArgs [make_executable_path world (pathParent fp) "a_out_exec"])).stderr,
        (interpretOutcome (world.outcomes 1) t
           (renderArgs [make_executable_path world (pathParent fp) "a_out_exec"])).returncode,
        renderArgs ["clang", fp, "-o",
          make_executable_path world (pathParent fp) "a_out_exec"] ++ " ; " ++
          renderArgs [make_executable_path world (pathParent fp) "a_out_exec"]⟩,
       [Invocation.argv ["clang", fp, "-o",
          make_executable_path world (pathParent fp) "a_out_exec"]
          (some (pathParent fp)) t,
        Invocation.argv [make_executable_path world (pathParent fp) "a_out_exec"]
          (some (pathParent fp)) t]) := by
  simp only [run_linter_for_language]
  rw [hlang]
  simp [is_executable_available, hgcc, hclang, run_command,
    interpretOutcome_returncode, interpretOutcome_executed, hrc]

/-- Shared shape lemma: the cpp branch compiled with `clang++` (selected
when `g++` is absent; the `-std=c++17` flag is still added), compile
succeeding. -/
theorem dispatchCppSuccessClangpp (world : World) (fp language : String)
    (t : Nat)
    (hlang : pyLower (pyStrip language) = "cpp" ∨ pyLower (pyStrip language) = "c++")
    (hgpp : world.which "g++" = none)
    (cp : String) (hclangpp : world.which "clang++" = some cp)
    (hrc : outcomeRC (world.outcomes 0) = 0) :
    run_linter_for_language world fp language t =
      (⟨(interpretOutcome (world.outcomes 1) t
           (renderArgs [make_executable_path world (pathParent fp) "a_out_exec"])).stdout,
        (interpretOutcome (world.outcomes 1) t
           (renderArgs [make_executable_path world (pathParent fp) "a_out_exec"])).stderr,
        (interpretOutcome (world.outcomes 1) t
           (renderArgs [make_executable_path world (pathParent fp) "a_out_exec"])).returncode,
        renderArgs ["clang++", fp, "-o",
          make_executable_path world (pathParent fp) "a_out_exec",
          "-std=c++17"] ++ " ; " ++
          renderArgs [make_executable_path world (pathParent fp) "a_out_exec"]⟩,
       [Invocation.argv ["clang++", fp, "-o",
          make_executable_path world (pathParent fp) "a_out_exec",
          "-std=c++17"] (some (pathParent fp)) t,
        Invocation.argv [make_executable_path world (pathParent fp) "a_out_exec"]
          (some (pathParent fp)) t]) := by
  rcases hlang with h | h <;>
  · simp only [run_linter_for_language]
    rw [h]
    simp [is_executable_available, hgpp, hclangpp, run_command,
      interpretOutcome_returncode, interpretOutcome_executed, hrc]

/-- C5: for every compile-and-run language, when the compile step succeeds
and the run step is performed, the `executed_command` of the returned
result is the compile phase's reconstructed command and the run phase's
reconstructed command joined by the `" ; "` separator.  The conjuncts
cover every toolchain configuration: javac, gcc, clang (gcc absent), g++,
and clang++ (g++ absent). -/
theorem executed_command_concatenates_phases (world : World)
    (fp language : String) (t : Nat)
    (hrc : outcomeRC (world.outcomes 0) = 0) :
    (pyLower (pyStrip language) = "java" →
      ∀ jp, world.which "javac" = some jp →
      ∀ vp, world.which "java" = some vp →
      (run_linter_for_language world fp language t).1.executed =
        renderArgs ["javac", fp] ++ " ; " ++
          renderArgs ["java", "-cp", pathParent fp, pathStem fp]) ∧
    (pyLower (pyStrip language) = "c" →
      ∀ gp, world.which "gcc" = some gp →
      (run_linter_for_language world fp language t).1.executed =
        renderArgs ["gcc", fp, "-o",
          make_executable_path world (pathParent fp) "a_out_exec"] ++ " ; " ++
          renderArgs [make_executable_path world (pathParent fp) "a_out_exec"]) ∧
    ((pyLower (pyStrip language) = "cpp" ∨ pyLower (pyStrip language) = "c++") →
      ∀ gp, world.which "g++" = some gp →
      (run_linter_for_language world fp language t).1.executed =
        renderArgs ["g++", fp, "-o",
          make_executable_path world (pathParent fp) "a_out_exec",
          "-std=c++17"] ++ " ; " ++
          renderArgs [make_executable_path world (pathParent fp) "a_out_exec"]) ∧
    (pyLower (pyStrip language) = "c" → world.which "gcc" = none →
      ∀ cp, world.which "clang" = some cp →
      (run_linter_for_language world fp language t).1.executed =
        renderArgs ["clang", fp, "-o",
          make_executable_path world (pathParent fp) "a_out_exec"] ++ " ; " ++
          renderArgs [make_executable_path world (pathParent fp) "a_out_exec"]) ∧
    ((pyLower (pyStrip language) = "cpp" ∨ pyLower (pyStrip language) = "c++") →
      world.which "g++" = none → ∀ cp, world.which "clang++" = some cp →
      (run_linter_for_language world fp language t).1.executed =
        renderArgs ["clang++", fp, "-o",
          make_executable_path world (pathParent fp) "a_out_exec",
          "-std=c++17"] ++ " ; " ++
          renderArgs [make_executable_path world (pathParent fp) "a_out_exec"]) := by
  refine ⟨fun hlang jp hjavac vp hjava => ?_, fun hlang gp hgcc => ?_,
    fun hlang gp hgpp => ?_, fun hlang hgcc cp hclang => ?_,
    fun hlang hgpp cp hclangpp => ?_⟩
  · rw [dispatchJavaSuccess world fp language t hlang jp hjavac vp hjava hrc]
  · rw [dispatchCSuccessGcc world fp language t hlang gp hgcc hrc]
  · rw [dispatchCppSuccessGpp world fp language t hlang gp hgpp hrc]
  · rw [dispatchCSuccessClang world fp language t hlang hgcc cp hclang hrc]
  · rw [dispatchCppSuccessClangpp world fp language t hlang hgpp cp hclangpp hrc]

/-- C5 witness: a successful java compile and run. -/
theorem executed_command_concatenates_phases_witness :
    (run_linter_for_language worldJavaOk "/tmp/Main.java" "java" 30).1.executed =
      renderArgs ["javac", "/tmp/Main.java"] ++ " ; " ++
        renderArgs ["java", "-cp", pathParent "/tmp/Main.java",
          pathStem "/tmp/Main.java"] :=
  (executed_command_concatenates_phases worldJavaOk "/tmp/Main.java" "java" 30
    (by decide)).1 (by decide) "/usr/bin/javac" rfl "/usr/bin/java" rfl

/-- C10: for java and c/cpp, when compilation succeeds and the run step
executes, the stdout and stderr of the returned result are exactly the run
step's stdout and stderr (the compile step's captured streams do not appear
in the result).  The conjuncts cover every toolchain configuration: javac,
gcc, clang (gcc absent), g++, and clang++ (g++ absent). -/
theorem run_output_replaces_compile_output (world : World)
    (fp language : String) (t : Nat)
    (hrc : outcomeRC (world.outcomes 0) = 0) :
    (pyLower (pyStrip language) = "java" →
      ∀ jp, world.which "javac" = some jp →
      ∀ vp, world.which "java" = some vp →
      (run_linter_for_language world fp language t).1.stdout =
        (interpretOutcome (world.outcomes 1) t
          (renderArgs ["java", "-cp", pathParent fp, pathStem fp])).stdout ∧
      (run_linter_for_language world fp language t).1.stderr =
        (interpretOutcome (world.outcomes 1) t
          (renderArgs ["java", "-cp", pathParent fp, pathStem fp])).stderr) ∧
    (pyLower (pyStrip language) = "c" →
      ∀ gp, world.which "gcc" = some gp →
      (run_linter_for_language world fp language t).1.stdout =
        (interpretOutcome (world.outcomes 1) t
          (renderArgs [make_executable_path world (pathParent fp) "a_out_exec"])).stdout ∧
      (run_linter_for_language world fp language t).1.stderr =
        (interpretOutcome (world.outcomes 1) t
          (renderArgs [make_executable_path world (pathParent fp) "a_out_exec"])).stderr) ∧
    ((pyLower (pyStrip language) = "cpp" ∨ pyLower (pyStrip language) = "c++") →
      ∀ gp, world.which "g++" = some gp →
      (run_linter_for_language world fp language t).1.stdout =
        (interpretOutcome (world.outcomes 1) t
          (renderArgs [make_executable_path world (pathParent fp) "a_out_exec"])).stdout ∧
      (run_linter_for_language world fp language t).1.stderr =
        (interpretOutcome (world.outcomes 1) t
          (renderArgs [make_executable_path world (pathParent fp) "a_out_exec"])).stderr) ∧
    (pyLower (pyStrip language) = "c" → world.which "gcc" = none →
      ∀ cp, world.which "clang" = some cp →
      (run_linter_for_language world fp language t).1.stdout =
        (interpretOutcome (world.outcomes 1) t
          (renderArgs [make_executable_path world (pathParent fp) "a_out_exec"])).stdout ∧
      (run_linter_for_language world fp language t).1.stderr =
        (interpretOutcome (world.outcomes 1) t
          (renderArgs [make_executable_path world (pathParent fp) "a_out_exec"])).stderr) ∧
    ((pyLower (pyStrip language) = "cpp" ∨ pyLower (pyStrip language) = "c++") →
      world.which "g++" = none → ∀ cp, world.which "clang++" = some cp →
      (run_linter_for_language world fp language t).1.stdout =
        (interpretOutcome (world.outcomes 1) t
          (renderArgs [make_executable_path world (pathParent fp) "a_out_exec"])).stdout ∧
      (run_linter_for_language world fp language t).1.stderr =
        (interpretOutcome (world.outcomes 1) t
          (renderArgs [make_executable_path world (pathParent fp) "a_out_exec"])).stderr) := by
  refine ⟨fun hlang jp hjavac vp hjava => ?_, fun hlang gp hgcc => ?_,
    fun hlang gp hgpp => ?_, fun hlang hgcc cp hclang => ?_,
    fun hlang hgpp cp hclangpp => ?_⟩
  · rw [dispatchJavaSuccess world fp language t hlang jp hjavac vp hjava hrc]
    exact ⟨rfl, rfl⟩
  · rw [dispatchCSuccessGcc world fp language t hlang gp hgcc hrc]
    exact ⟨rfl, rfl⟩
  · rw [dispatchCppSuccessGpp world fp language t hlang gp hgpp hrc]
    exact ⟨rfl, rfl⟩
  · rw [dispatchCSuccessClang world fp language t hlang hgcc cp hclang hrc]
    exact ⟨rfl, rfl⟩
  · rw [dispatchCppSuccessClangpp world fp language t hlang hgpp cp hclangpp hrc]
    exact ⟨rfl, rfl⟩

/-- C10 witness: a successful `gcc` compile followed by the run step. -/
theorem run_output_replaces_compile_output_witness :
    (run_linter_for_language worldGccOk "/tmp/x.c" "c" 30).1.stdout =
      (interpretOutcome (worldGccOk.outcomes 1) 30
        (renderArgs [make_executable_path worldGccOk (pathParent "/tmp/x.c")
          "a_out_exec"])).stdout ∧
    (run_linter_for_language worldGccOk "/tmp/x.c" "c" 30).1.stderr =
      (interpretOutcome (worldGccOk.outcomes 1) 30
        (renderArgs [make_executable_path worldGccOk (pathParent "/tmp/x.c")
          "a_out_exec"])).stderr :=
  ((run_output_replaces_compile_output worldGccOk "/tmp/x.c" "c" 30
    (by decide)).2.1 (by decide) "/usr/bin/gcc" rfl)

/-- C8: the executable naming policy appends the `.exe` suffix exactly on
Windows and returns the bare joined path otherwise, and in the c/cpp
branches the path the compile command writes to (`-o` argument) is exactly
the path the run step launches — for every compiler the preference order
can select: gcc, clang (gcc absent), g++, and clang++ (g++ absent). -/
theorem executable_naming_policy (world : World) :
    (∀ cwd nm, world.isWindows = true →
      make_executable_path world cwd nm = cwd ++ "\\" ++ (nm ++ ".exe")) ∧
    (∀ cwd nm, world.isWindows = false →
      make_executable_path world cwd nm = cwd ++ "/" ++ nm) ∧
    (∀ fp language t, pyLower (pyStrip language) = "c" →
      ∀ gp, world.which "gcc" = some gp → outcomeRC (world.outcomes 0) = 0 →
      (run_linter_for_language world fp language t).2 =
        [Invocation.argv ["gcc", fp, "-o",
           make_executable_path world (pathParent fp) "a_out_exec"]
           (some (pathParent fp)) t,
         Invocation.argv [make_executable_path world (pathParent fp) "a_out_exec"]
           (some (pathParent fp)) t]) ∧
    (∀ fp language t,
      (pyLower (pyStrip language) = "cpp" ∨ pyLower (pyStrip language) = "c++") →
      ∀ gp, world.which "g++" = some gp → outcomeRC (world.outcomes 0) = 0 →
      (run_linter_for_language world fp language t).2 =
        [Invocation.argv ["g++", fp, "-o",
           make_executable_path world (pathParent fp) "a_out_exec",
           "-std=c++17"] (some (pathParent fp)) t,
         Invocation.argv [make_executable_path world (pathParent fp) "a_out_exec"]
           (some (pathParent fp)) t]) ∧
    (∀ fp language t, pyLower (pyStrip language) = "c" →
      world.which "gcc" = none → ∀ cp, world.which "clang" = some cp →
      outcomeRC (world.outcomes 0) = 0 →
      (run_linter_for_language world fp language t).2 =
        [Invocation.argv ["clang", fp, "-o",
           make_executable_path world (pathParent fp) "a_out_exec"]
           (some (pathParent fp)) t,
         Invocation.argv [make_executable_path world (pathParent fp) "a_out_exec"]
           (some (pathParent fp)) t]) ∧
    (∀ fp language t,
      (pyLower (pyStrip language) = "cpp" ∨ pyLower (pyStrip language) = "c++") →
      world.which "g++" = none → ∀ cp, world.which "clang++" = some cp →
      outcomeRC (world.outcomes 0) = 0 →
      (run_linter_for_language world fp language t).2 =
        [Invocation.argv ["clang++", fp, "-o",
           make_executable_path world (pathParent fp) "a_out_exec",
           "-std=c++17"] (some (pathParent fp)) t,
         Invocation.argv [make_executable_path world (pathParent fp) "a_out_exec"]
           (some (pathParent fp)) t]) := by
  refine ⟨fun cwd nm hw => ?_, fun cwd nm hw => ?_,
    fun fp language t hlang gp hgcc hrc => ?_,
    fun fp language t hlang gp hgpp hrc => ?_,
    fun fp language t hlang hgcc cp hclang hrc => ?_,
    fun fp language t hlang hgpp cp hclangpp hrc => ?_⟩
  · simp [make_executable_path, pathJoin, hw]
  · simp [make_executable_path, pathJoin, hw]
  · rw [dispatchCSuccessGcc world fp language t hlang gp hgcc hrc]
  · rw [dispatchCppSuccessGpp world fp language t hlang gp hgpp hrc]
  · rw [dispatchCSuccessClang world fp language t hlang hgcc cp hclang hrc]
  · rw [dispatchCppSuccessClangpp world fp language t hlang hgpp cp hclangpp hrc]

/-- C8 witness: the `gcc` compile writes to the same path the run step
launches, on a POSIX host (bare path, no suffix). -/
theorem executable_naming_policy_witness :
    make_executable_path worldGccOk "/tmp" "a_out_exec" = "/tmp" ++ "/" ++ "a_out_exec" ∧
    (run_linter_for_language worldGccOk "/tmp/x.c" "c" 30).2 =
      [Invocation.argv ["gcc", "/tmp/x.c", "-o",
         make_executable_path worldGccOk (pathParent "/tmp/x.c") "a_out_exec"]
         (some (pathParent "/tmp/x.c")) 30,
       Invocation.argv [make_executable_path worldGccOk (pathParent "/tmp/x.c")
         "a_out_exec"] (some (pathParent "/tmp/x.c")) 30] :=
  ⟨(executable_naming_policy worldGccOk).2.1 "/tmp" "a_out_exec" rfl,
   (executable_naming_policy worldGccOk).2.2.1 "/tmp/x.c" "c" 30 (by decide)
     "/usr/bin/gcc" rfl (by decide)⟩

/-- C7 counterexample: for an unsupported language and a `.py` file, the
extension fallback is not a retry of the full interpreted-python policy.
On a host with `pylint` but no python interpreter, dispatching `ruby` on a
`.py` file yields the generic no-runner result without spawning anything,
while dispatching `python` on the same file invokes `pylint`. -/
theorem extension_fallback_counterexample :
    run_linter_for_language worldPylintOnly "/tmp/x.py" "ruby" 30 ≠
      run_linter_for_language worldPylintOnly "/tmp/x.py" "python" 30 := by
  decide

/-- C7 (amended): for a language key outside the supported set, the
dispatcher reruns only the interpreter part of the python policy — exactly
when the file's extension is `.py` and `python`/`python3` is found — and in
every other case (including `.py` files with no interpreter, where the
python policy's `pylint` fallback is not retried) it returns return code
125 with a message naming the unsupported language verbatim and spawns no
process. -/
theorem unsupported_language_fallback (world : World) (fp language : String)
    (t : Nat)
    (hunsup : pyLower (pyStrip language) ∉
      (["python", "py", "javascript", "js", "node", "java", "c", "cpp",
        "c++"] : List String)) :
    (pathSuffix fp = ".py" → ∀ b, pythonBin world = some b →
      run_linter_for_language world fp language t =
        (interpretOutcome (world.outcomes 0) t (renderArgs [b, fp]),
         [Invocation.argv [b, fp] (some (pathParent fp)) t])) ∧
    (pathSuffix fp = ".py" → pythonBin world = none →
      run_linter_for_language world fp language t =
        (⟨"", "No runner available for language \x27" ++ language ++ "\x27.",
          125, ""⟩, [])) ∧
    (pathSuffix fp ≠ ".py" →
      run_linter_for_language world fp language t =
        (⟨"", "No runner available for language \x27" ++ language ++ "\x27.",
          125, ""⟩, [])) := by
  simp only [List.mem_cons, List.not_mem_nil, or_false, not_or] at hunsup
  obtain ⟨h1, h2, h3, h4, h5, h6, h7, h8, h9⟩ := hunsup
  refine ⟨fun hsuff b hpy => ?_, fun hsuff hpy => ?_, fun hsuff => ?_⟩
  · simp [run_linter_for_language, h1, h2, h3, h4, h5, h6, h7, h8, h9,
      hsuff, hpy, run_command]
  · simp [run_linter_for_language, h1, h2, h3, h4, h5, h6, h7, h8, h9,
      hsuff, hpy]
  · simp [run_linter_for_language, h1, h2, h3, h4, h5, h6, h7, h8, h9, hsuff]

/-- C7 witness: dispatching the unsupported language `ruby` on a `.rb`
file returns the deterministic no-runner result without spawning. -/
theorem unsupported_language_fallback_witness :
    run_linter_for_language worldEmptyPath "/tmp/x.rb" "ruby" 30 =
      (⟨"", "No runner available for language \x27" ++ "ruby" ++ "\x27.",
        125, ""⟩, []) :=
  (unsupported_language_fallback worldEmptyPath "/tmp/x.rb" "ruby" 30
    (by decide)).2.2 (by decide)

/-- C9: the orchestrator's run interface takes an optional timeout
parameter defaulting to 30; it bounds every process step of a dispatch
(each recorded `subprocess.run` call carries exactly that timeout), and the
HTTP `/run` endpoint, whose request model has no timeout field, always
invokes the runner with the default, so every step it causes is bounded by
30. -/
theorem timeout_parameter_bounds_each_step :
    (∀ (world : World) (fp language : String),
      run_linter_for_language world fp language =
        run_linter_for_language world fp language 30) ∧
    (∀ (world : World) (fp language : String) (t : Nat) (inv : Invocation),
      inv ∈ (run_linter_for_language world fp language t).2 →
      inv.timeLimitOf = t) ∧
    (∀ (world : World) (td : String) (req : Api.RunRequest) (inv : Invocation),
      inv ∈ (Api.run_code world td req).2.1 → inv.timeLimitOf = 30) := by
  have step : ∀ (world : World) (fp language : String) (t : Nat)
      (inv : Invocation), inv ∈ (run_linter_for_language world fp language t).2 →
      inv.timeLimitOf = t := by
    intro world fp language t inv hmem
    simp only [run_linter_for_language, run_command, List.singleton_append,
      List.cons_append, List.nil_append] at hmem
    repeat' split at hmem
    all_goals try simp only [List.mem_cons, List.not_mem_nil, or_false] at hmem
    all_goals
      first
        | exact hmem.elim
        | (rcases hmem with rfl | rfl <;> rfl)
  refine ⟨fun world fp language => rfl, step,
    fun world td req inv hmem => ?_⟩
  refine step world
    (pathJoin world td (Api.chosenFilename req.filename
      (Api.extFor (pyLower req.language))))
    (pyLower req.language) 30 inv ?_
  simpa [Api.run_code] using hmem

/-- C9 witness: a python dispatch with a nondefault timeout of 7 records
exactly one invocation, and it carries the 7-second bound. -/
theorem timeout_parameter_bounds_each_step_witness :
    (Invocation.argv ["/usr/bin/python", "/tmp/x.py"] (some "/tmp") 7).timeLimitOf = 7 :=
  timeout_parameter_bounds_each_step.2.1 worldPythonOk "/tmp/x.py" "python" 7
    (Invocation.argv ["/usr/bin/python", "/tmp/x.py"] (some "/tmp") 7)
    (by decide)

end Runner

